import Mathlib

/-!
Verification of the payment confirmation flow of the flipmart storefront.

The development shallowly embeds the checkout components
(UPIPayment.tsx, ScanToPayment.tsx, CashfreePayment.tsx) and the
cashfree-payment edge function.  React state is modelled as explicit
records, event handlers as functions from state to state plus a record
of the callbacks they invoke, and the Deno edge function as a function
of its environment, request and the remote gateway response.
-/

/- ===== JavaScript string primitives used by the components ===== -/

/-- JavaScript String.prototype.trim: drop leading and trailing
whitespace characters.  Modelled over the character list so that it is
kernel-computable. -/
def jsTrim (s : String) : String :=
  String.mk (((s.data.dropWhile Char.isWhitespace).reverse.dropWhile Char.isWhitespace).reverse)

/-- The UTR input change handler filter, from
text.replace with the pattern matching every non-digit and the empty
replacement: keep only the decimal digit characters. -/
def digitFilter (s : String) : String :=
  String.mk (s.data.filter Char.isDigit)

/-- JavaScript truthiness coalescing v or-else d on an optional string:
undefined and the empty string are falsy. -/
def jsOrStr (v : Option String) (d : String) : String :=
  match v with
  | some s => if s = "" then d else s
  | none => d

/-- The reference validator used as the confirm gate in both
UPIPayment.handleConfirmPayment and ScanToPayment.handleConfirmPayment:
the source refuses when utrNumber.trim().length < 6, so a reference is
valid exactly when that test fails. -/
def isValid (reference : String) : Bool :=
  !((jsTrim reference).length < 6)

/- ===== Percent-encoding primitives of the browser runtime used by the
deep-link builders: encodeURIComponent and the URLSearchParams
serializer (application/x-www-form-urlencoded), plus the one-shot decode
their output is read back with ===== -/

/-- Uppercase hexadecimal digit of a value below 16. -/
def toHexDigit (n : Nat) : Char :=
  if n < 10 then Char.ofNat (48 + n) else Char.ofNat (55 + n)

/-- A percent escape: the percent sign (code 37) and two uppercase hex
digits of the byte. -/
def percentEncodeByte (n : Nat) : List Char :=
  [Char.ofNat 37, toHexDigit (n / 16), toHexDigit (n % 16)]

/-- UTF-8 bytes of a code point. -/
def utf8Bytes (n : Nat) : List Nat :=
  if n < 128 then [n]
  else if n < 2048 then [192 + n / 64, 128 + n % 64]
  else if n < 65536 then [224 + n / 4096, 128 + (n / 64) % 64, 128 + n % 64]
  else [240 + n / 262144, 128 + (n / 4096) % 64, 128 + (n / 64) % 64, 128 + n % 64]

/-- The characters the urlencoded serializer keeps verbatim:
alphanumerics and asterisk, hyphen, period, underscore. -/
def formUrlSafe (c : Char) : Bool :=
  c.isAlphanum || c = '*' || c = '-' || c = '.' || c = '_'

/-- One character under the urlencoded serializer: space becomes plus,
safe characters stay, everything else is percent-escaped bytewise. -/
def formUrlEncodeChar (c : Char) : List Char :=
  if c = ' ' then ['+']
  else if formUrlSafe c then [c]
  else (utf8Bytes c.toNat).flatMap percentEncodeByte

/-- What URLSearchParams.toString does to one name or value. -/
def formUrlEncode (s : String) : String :=
  String.mk (s.data.flatMap formUrlEncodeChar)

/-- The unreserved characters of encodeURIComponent: alphanumerics and
hyphen, underscore, period, exclamation, tilde, asterisk, apostrophe
(code 39) and parentheses. -/
def uriComponentUnreserved (c : Char) : Bool :=
  c.isAlphanum || c = '-' || c = '_' || c = '.' || c = '!' || c = '~' || c = '*' ||
    c.toNat = 39 || c = '(' || c = ')'

/-- One character under encodeURIComponent. -/
def encodeURIComponentChar (c : Char) : List Char :=
  if uriComponentUnreserved c then [c]
  else (utf8Bytes c.toNat).flatMap percentEncodeByte

/-- The JavaScript encodeURIComponent function. -/
def encodeURIComponent (s : String) : String :=
  String.mk (s.data.flatMap encodeURIComponentChar)

/-- Numeric value of a hexadecimal digit character. -/
def hexDigitVal (c : Char) : Option Nat :=
  if 48 ≤ c.toNat ∧ c.toNat ≤ 57 then some (c.toNat - 48)
  else if 65 ≤ c.toNat ∧ c.toNat ≤ 70 then some (c.toNat - 55)
  else if 97 ≤ c.toNat ∧ c.toNat ≤ 102 then some (c.toNat - 87)
  else none

/-- One application of urlencoded decoding: plus back to space, a
percent escape back to its byte, anything else (and malformed escapes)
verbatim. -/
def formUrlDecodeList : List Char → List Char
  | [] => []
  | c :: cs =>
    if c = '+' then ' ' :: formUrlDecodeList cs
    else if c.toNat = 37 then
      match cs with
      | c1 :: c2 :: rest =>
        match hexDigitVal c1, hexDigitVal c2 with
        | some a, some b => Char.ofNat (16 * a + b) :: formUrlDecodeList rest
        | _, _ => c :: c1 :: c2 :: formUrlDecodeList rest
      | [c1] => [c, c1]
      | [] => [c]
    else c :: formUrlDecodeList cs

/-- One application of urlencoded decoding on strings. -/
def formUrlDecode (s : String) : String :=
  String.mk (formUrlDecodeList s.data)

/-- The query string URLSearchParams.toString produces from its pairs,
in insertion order. -/
def serializeQuery (ps : List (String × String)) : String :=
  String.intercalate "&" (ps.map (fun p => formUrlEncode p.1 ++ "=" ++ formUrlEncode p.2))

/-- The serialized value a key gets in the query string, used to state
what one decode of a query value yields. -/
def serializedValue (ps : List (String × String)) (key : String) : Option String :=
  (ps.find? (fun p => p.1 == key)).map (fun p => formUrlEncode p.2)

/- ===== Countdown clock (setInterval callback in UPIPayment.tsx lines
71-84 and ScanToPayment.tsx lines 33-46; both components use the same
updater body) ===== -/

/-- The (minutes, seconds) display value held in the timeLeft state. -/
structure TimeLeft where
  minutes : Int
  seconds : Int
deriving DecidableEq

/-- One interval firing: decrement seconds while positive, else borrow
from minutes resetting seconds to 59, else wrap to (9, 59). -/
def tick (t : TimeLeft) : TimeLeft :=
  if t.seconds > 0 then { t with seconds := t.seconds - 1 }
  else if t.minutes > 0 then { minutes := t.minutes - 1, seconds := 59 }
  else { minutes := 9, seconds := 59 }

/-- n consecutive interval firings. -/
def tickN : Nat → TimeLeft → TimeLeft
  | 0, t => t
  | n + 1, t => tickN n (tick t)

/-- The clock invariant: both fields non-negative, seconds at most 59. -/
def TimeLeftInv (t : TimeLeft) : Prop :=
  0 ≤ t.minutes ∧ 0 ≤ t.seconds ∧ t.seconds ≤ 59

/- ===== UPIPayment.tsx component ===== -/

namespace UPIPayment

/-- The useState hooks of the UPIPayment component that take part in the
confirmation flow (logo assignment, copied flag and timer are kept
separate). -/
structure ComponentState where
  selectedMethod : Option String
  utrNumber : String
  showPaymentUI : Bool
  appLaunched : Bool
deriving DecidableEq

/-- Initial hook values: useState(null), useState of the empty string,
useState(false), useState(false). -/
def initialState : ComponentState :=
  { selectedMethod := none, utrNumber := "", showPaymentUI := false, appLaunched := false }

/-- generateUPILink (lines 95-106): build URLSearchParams from pa, pn,
am, cu, tn where pn and tn are first passed through encodeURIComponent,
then serialize.  The amount prop is a number rendered with toFixed(2);
it enters here as the already formatted string. -/
def upiLinkQueryPairs (upiId merchantName amountStr : String) : List (String × String) :=
  [("pa", upiId), ("pn", encodeURIComponent merchantName), ("am", amountStr),
   ("cu", "INR"), ("tn", encodeURIComponent ("Payment to " ++ merchantName))]

/-- generateUPILink result: appScheme or-else the upi literal, then the
pay path and the serialized query. -/
def generateUPILink (upiId merchantName amountStr : String) (appScheme : Option String) : String :=
  jsOrStr appScheme "upi" ++ "://pay?" ++
    serializeQuery (upiLinkQueryPairs upiId merchantName amountStr)

/-- generateAndroidIntent (lines 109-119): the same five fields but pn
and tn raw, serialized by URLSearchParams alone. -/
def androidIntentQueryPairs (upiId merchantName amountStr : String) : List (String × String) :=
  [("pa", upiId), ("pn", merchantName), ("am", amountStr),
   ("cu", "INR"), ("tn", "Payment to " ++ merchantName)]

/-- generateAndroidIntent result. -/
def generateAndroidIntent (upiId merchantName amountStr packageName : String) : String :=
  "intent://pay?" ++ serializeQuery (androidIntentQueryPairs upiId merchantName amountStr) ++
    "#Intent;scheme=upi;package=" ++ packageName ++ ";end"

/-- handleMethodSelect (lines 180-182): only setSelectedMethod runs. -/
def handleMethodSelect (method : String) (s : ComponentState) : ComponentState :=
  { s with selectedMethod := some method }

/-- The UTR Input onChange handler (line 307): store the digit-filtered
input text. -/
def utrInputChange (text : String) (s : ComponentState) : ComponentState :=
  { s with utrNumber := digitFilter text }

/-- handleOpenApp (lines 184-200): a no-op without a selected method;
otherwise set appLaunched and showPaymentUI.  The openUPIApp navigation
side effect (skipped for the Scan To Pay method or off mobile) does not
touch these state fields. -/
def handleOpenApp (s : ComponentState) : ComponentState :=
  match s.selectedMethod with
  | none => s
  | some _ => { s with appLaunched := true, showPaymentUI := true }

/-- The choose-different-payment-method button onClick (lines 328-333). -/
def chooseDifferentMethod (s : ComponentState) : ComponentState :=
  { s with showPaymentUI := false, selectedMethod := none, utrNumber := "", appLaunched := false }

/-- Result of running handleConfirmPayment: the (unchanged) state, the
list of onPaymentConfirm invocations with their arguments, and whether
the destructive Enter-UTR-Number toast was shown. -/
structure ConfirmOutcome where
  state : ComponentState
  confirmCalls : List (String × String)
  errorToastShown : Bool
deriving DecidableEq

/-- handleConfirmPayment (lines 202-212).  The source refuses with a
toast when utrNumber.trim().length < 6 or selectedMethod is null, and
otherwise calls onPaymentConfirm(utrNumber, selectedMethod); the two
refusal tests are collapsed here into a match followed by the length
guard, which yields the same outcome in every case. -/
def handleConfirmPayment (s : ComponentState) : ConfirmOutcome :=
  match s.selectedMethod with
  | none => { state := s, confirmCalls := [], errorToastShown := true }
  | some method =>
    if (jsTrim s.utrNumber).length < 6 then
      { state := s, confirmCalls := [], errorToastShown := true }
    else
      { state := s, confirmCalls := [(s.utrNumber, method)], errorToastShown := false }

/-- The confirm button disabled expression (line 319). -/
def confirmButtonDisabled (disabled : Bool) (s : ComponentState) : Bool :=
  disabled || ((jsTrim s.utrNumber).length < 6)

/-- End-to-end scan-to-pay run: select the Scan To Pay method, continue
(launch), type the reference text into the filtering UTR input, then
confirm. -/
def scanToPayRun (typed : String) : ConfirmOutcome :=
  handleConfirmPayment (utrInputChange typed (handleOpenApp (handleMethodSelect "Scan To Pay" initialState)))

end UPIPayment

/- ===== ScanToPayment.tsx component ===== -/

namespace ScanToPayment

/-- The useState hooks of the ScanToPayment component relevant to
confirmation. -/
structure ComponentState where
  showPaymentUI : Bool
  utrNumber : String
deriving DecidableEq

/-- Initial hook values. -/
def initialState : ComponentState :=
  { showPaymentUI := false, utrNumber := "" }

/-- The UTR Input onChange handler (line 132): digit-filtered text. -/
def utrInputChange (text : String) (s : ComponentState) : ComponentState :=
  { s with utrNumber := digitFilter text }

/-- Result of handleConfirmPayment: unchanged state, onPaymentConfirm
invocations (single string argument here), toast flag. -/
structure ConfirmOutcome where
  state : ComponentState
  confirmCalls : List String
  errorToastShown : Bool
deriving DecidableEq

/-- handleConfirmPayment (lines 66-76): refuse with a toast when
utrNumber.trim().length < 6, else call onPaymentConfirm(utrNumber). -/
def handleConfirmPayment (s : ComponentState) : ConfirmOutcome :=
  if (jsTrim s.utrNumber).length < 6 then
    { state := s, confirmCalls := [], errorToastShown := true }
  else
    { state := s, confirmCalls := [s.utrNumber], errorToastShown := false }

end ScanToPayment

/- ===== cashfree-payment edge function (Deno serve handler) ===== -/

namespace CashfreeFunction

/-- The gateway credentials read from the environment; none models an
unset variable. -/
structure Env where
  appId : Option String
  secretKey : Option String
deriving DecidableEq

/-- JavaScript falsity of an optional environment string: unset or
empty. -/
def falsyStr : Option String → Bool
  | none => true
  | some s => s = ""

/-- The JSON body of the remote Cashfree create-order reply, carrying
the fields the handler reads. -/
structure RemoteCreateData where
  message : Option String
  order_id : String
  payment_session_id : String
  order_token : String
  cf_order_id : String
deriving DecidableEq

/-- The remote create-order fetch result: the ok flag, the HTTP status
and the parsed body. -/
structure RemoteCreate where
  ok : Bool
  status : Nat
  data : RemoteCreateData
deriving DecidableEq

/-- The response body and status the create_order branch sends back. -/
inductive CreateOut where
  | configError (status : Nat) (msg : String)
  | gatewayError (status : Nat) (msg : String) (detailsAttached : Bool)
  | created (orderId sessionId orderToken cfOrderId : String)
deriving DecidableEq

/-- A run of the create_order action: the response together with the
number of fetch calls issued to the remote gateway. -/
structure CreateRun where
  response : CreateOut
  fetchCalls : Nat
deriving DecidableEq

/-- The serve handler on an action create_order request (part_000 lines
14-85): the credentials guard runs before the branch and returns a 500
Payment-gateway-not-configured body without fetching; otherwise exactly
one fetch is issued, a non-ok reply is forwarded as an error carrying
data.message (or the fixed fallback) and the data as details, and an ok
reply is mapped to the success body. -/
def createOrderAction (env : Env) (remote : RemoteCreate) : CreateRun :=
  if falsyStr env.appId || falsyStr env.secretKey then
    { response := .configError 500 "Payment gateway not configured", fetchCalls := 0 }
  else if !remote.ok then
    { response := .gatewayError remote.status
        (jsOrStr remote.data.message "Failed to create payment order") true,
      fetchCalls := 1 }
  else
    { response := .created remote.data.order_id remote.data.payment_session_id
        remote.data.order_token remote.data.cf_order_id,
      fetchCalls := 1 }

/-- The JSON body of the remote Cashfree get-order reply used by the
verify_payment branch. -/
structure OrderData where
  order_status : String
  cf_order_id : String
  order_amount : Int
deriving DecidableEq

/-- The success body of the verify_payment branch (part_000 lines
109-118). -/
structure VerifyOut where
  success : Bool
  orderStatus : String
  paymentStatus : String
  cfOrderId : String
  orderAmount : Int
deriving DecidableEq

/-- The verify_payment success mapping: the raw order_status is passed
through and paymentStatus is paid exactly on the PAID literal, pending
otherwise. -/
def verifyPaymentResponse (data : OrderData) : VerifyOut :=
  { success := true
    orderStatus := data.order_status
    paymentStatus := if data.order_status = "PAID" then "paid" else "pending"
    cfOrderId := data.cf_order_id
    orderAmount := data.order_amount }

end CashfreeFunction

/- ===== CashfreePayment.tsx component ===== -/

namespace CashfreePayment

/-- Everything the handlePayment run depends on: the supabase invoke
outcome (an invocation error message, or the parsed data fields), the
window.Cashfree SDK presence, and whether the checkout call itself
throws. -/
structure HandlerEnv where
  invokeError : Option String
  dataSuccess : Bool
  dataError : Option String
  dataSessionId : String
  sdkLoaded : Bool
  checkoutThrows : Option String
deriving DecidableEq

/-- Observable steps of a handlePayment run, in order: the loading-state
mutations, the checkout launch or SDK script append, the failure toast
and the onPaymentFailure and onPaymentSuccess callbacks. -/
inductive ClientEvent where
  | setLoadingTrue
  | checkoutOpened (sessionId : String)
  | sdkScriptAppended
  | failureToast (msg : String)
  | paymentFailureCb (msg : String)
  | paymentSuccessCb (paymentId : String)
  | setLoadingFalse
deriving DecidableEq

/-- The shared catch block (lines 83-90): toast, then
onPaymentFailure(error.message). -/
def catchEvents (msg : String) : List ClientEvent :=
  [.failureToast msg, .paymentFailureCb msg]

/-- The try block of handlePayment (lines 35-81): throw on a supabase
invoke error, throw data.error (or the fixed fallback) when success is
false, then either run cashfree.checkout (which may itself throw) or
append the SDK script whose onload fires after the handler returns. -/
def tryEvents (env : HandlerEnv) : List ClientEvent :=
  match env.invokeError with
  | some m => catchEvents m
  | none =>
    if !env.dataSuccess then
      catchEvents (jsOrStr env.dataError "Failed to create payment")
    else if env.sdkLoaded then
      match env.checkoutThrows with
      | some m => catchEvents m
      | none => [.checkoutOpened env.dataSessionId]
    else
      [.sdkScriptAppended]

/-- A full handlePayment run (lines 32-94): setLoading(true) on entry,
the try/catch body, and the finally clause setLoading(false) on every
exit path. -/
def handlePayment (env : HandlerEnv) : List ClientEvent :=
  [.setLoadingTrue] ++ tryEvents env ++ [.setLoadingFalse]

/-- The loading flag after replaying a list of events over an initial
value. -/
def loadingAfter (events : List ClientEvent) (l : Bool) : Bool :=
  events.foldl
    (fun acc e =>
      match e with
      | .setLoadingTrue => true
      | .setLoadingFalse => false
      | _ => acc) l

/-- The pay button disabled expression (line 128). -/
def payButtonDisabled (disabled loading : Bool) : Bool :=
  disabled || loading

/-- Whether an event is an onPaymentSuccess invocation. -/
def isSuccessCallback : ClientEvent → Bool
  | .paymentSuccessCb _ => true
  | _ => false

end CashfreePayment

/- ===== Helper lemmas ===== -/

lemma hexDigitVal_toHexDigit (m : Nat) (h : m < 16) :
    hexDigitVal (toHexDigit m) = some m := by
  interval_cases m <;> decide

lemma toHexDigit_ascii (m : Nat) (h : m < 16) : (toHexDigit m).toNat < 128 := by
  interval_cases m <;> decide

lemma decode_cons_plus (cs : List Char) :
    formUrlDecodeList ('+' :: cs) = ' ' :: formUrlDecodeList cs := by
  match cs with
  | [] => rfl
  | [c1] => rfl
  | c1 :: c2 :: rest => rfl

lemma decode_cons_of_ne (c : Char) (h1 : ¬ c = '+') (h2 : ¬ c.toNat = 37) (cs : List Char) :
    formUrlDecodeList (c :: cs) = c :: formUrlDecodeList cs := by
  match cs with
  | [] => simp [formUrlDecodeList, h1, h2]
  | [c1] => simp [formUrlDecodeList, h1, h2]
  | c1 :: c2 :: rest => simp [formUrlDecodeList, h1, h2]

lemma decode_cons_percent (a b : Nat) (ha : a < 16) (hb : b < 16) (rest : List Char) :
    formUrlDecodeList (Char.ofNat 37 :: toHexDigit a :: toHexDigit b :: rest) =
      Char.ofNat (16 * a + b) :: formUrlDecodeList rest := by
  simp [formUrlDecodeList, hexDigitVal_toHexDigit a ha, hexDigitVal_toHexDigit b hb]

/-- One urlencoded decode inverts the urlencoded serializer on ASCII
input. -/
lemma decode_encode (cs : List Char) (h : ∀ c ∈ cs, c.toNat < 128) :
    formUrlDecodeList (cs.flatMap formUrlEncodeChar) = cs := by
  induction cs with
  | nil => rfl
  | cons c cs ih =>
    have hc : c.toNat < 128 := h c (List.mem_cons_self c cs)
    have hcs := fun x hx => h x (List.mem_cons_of_mem c hx)
    have htail := ih hcs
    by_cases hsp : c = ' '
    · subst hsp
      have henc : (' ' :: cs).flatMap formUrlEncodeChar =
          '+' :: cs.flatMap formUrlEncodeChar := by
        simp [formUrlEncodeChar]
      rw [henc, decode_cons_plus, htail]
    · by_cases hsafe : formUrlSafe c = true
      · have hne1 : ¬ c = '+' := by
          intro hh; subst hh; exact absurd hsafe (by decide)
        have hne2 : ¬ (c.toNat = 37) := by
          intro hh
          have hcp : c = '%' := by
            have h0 := Char.ofNat_toNat c
            rw [hh] at h0
            exact h0.symm
          subst hcp; exact absurd hsafe (by decide)
        have henc : (c :: cs).flatMap formUrlEncodeChar =
            c :: cs.flatMap formUrlEncodeChar := by
          simp [formUrlEncodeChar, hsp, hsafe]
        rw [henc, decode_cons_of_ne c hne1 hne2, htail]
      · have henc : (c :: cs).flatMap formUrlEncodeChar =
            Char.ofNat 37 :: toHexDigit (c.toNat / 16) :: toHexDigit (c.toNat % 16) ::
              cs.flatMap formUrlEncodeChar := by
          simp [formUrlEncodeChar, hsp, hsafe, utf8Bytes, hc, percentEncodeByte]
        rw [henc,
          decode_cons_percent _ _ (by omega) (by omega : c.toNat % 16 < 16), htail]
        have hdm : 16 * (c.toNat / 16) + c.toNat % 16 = c.toNat := by omega
        rw [hdm, Char.ofNat_toNat]

/-- String-level roundtrip of the urlencoded serializer on ASCII
strings. -/
lemma formUrlDecode_formUrlEncode (s : String) (h : ∀ c ∈ s.data, c.toNat < 128) :
    formUrlDecode (formUrlEncode s) = s := by
  show String.mk (formUrlDecodeList (s.data.flatMap formUrlEncodeChar)) = s
  rw [decode_encode s.data h]

lemma encodeURIComponentChar_ascii (c : Char) (hc : c.toNat < 128) :
    ∀ x ∈ encodeURIComponentChar c, x.toNat < 128 := by
  intro x hx
  unfold encodeURIComponentChar at hx
  by_cases hu : uriComponentUnreserved c = true
  · rw [if_pos hu] at hx
    simp at hx
    rw [hx]; exact hc
  · rw [if_neg hu] at hx
    simp [utf8Bytes, hc, percentEncodeByte] at hx
    rcases hx with h1 | h2 | h3
    · rw [h1]; decide
    · rw [h2]; exact toHexDigit_ascii _ (by omega)
    · rw [h3]; exact toHexDigit_ascii _ (by omega)

/-- encodeURIComponent maps ASCII strings to ASCII strings. -/
lemma encodeURIComponent_ascii (s : String) (h : ∀ c ∈ s.data, c.toNat < 128) :
    ∀ c ∈ (encodeURIComponent s).data, c.toNat < 128 := by
  intro c hc
  have hm : c ∈ s.data.flatMap encodeURIComponentChar := hc
  rcases List.mem_flatMap.mp hm with ⟨a, ha, hca⟩
  exact encodeURIComponentChar_ascii a (h a ha) c hca

lemma tick_inv (t : TimeLeft) (h : TimeLeftInv t) : TimeLeftInv (tick t) := by
  obtain ⟨h1, h2, h3⟩ := h
  unfold tick TimeLeftInv
  split_ifs with hs hm
  · exact ⟨h1, show (0 : Int) ≤ t.seconds - 1 by omega, show t.seconds - 1 ≤ 59 by omega⟩
  · exact ⟨show (0 : Int) ≤ t.minutes - 1 by omega, show (0 : Int) ≤ 59 by decide,
      show (59 : Int) ≤ 59 by decide⟩
  · exact ⟨by decide, by decide, by decide⟩

lemma tickN_inv (n : Nat) (t : TimeLeft) (h : TimeLeftInv t) : TimeLeftInv (tickN n t) := by
  induction n generalizing t with
  | zero => exact h
  | succ n ih => exact ih (tick t) (tick_inv t h)

/- ===== Claim theorems ===== -/

/-- Claim C1, counterexample: in a session where the reference 123456
was entered under the selected PhonePe channel, re-selecting GPay via
handleMethodSelect leaves the non-empty reference in place instead of
clearing it. -/
theorem claim1_counterexample :
    (UPIPayment.handleMethodSelect "GPay"
      { selectedMethod := some "PhonePe", utrNumber := "123456",
        showPaymentUI := true, appLaunched := true }).utrNumber = "123456" ∧
    (("123456" : String) == "") = false := by
  decide

/-- Claim C1 as amended: re-selecting a channel through
handleMethodSelect leaves the reference unchanged; the reference is
cleared only by the choose-different-payment-method reset, which also
clears the selection, so a re-selection reached through that reset does
start from an empty reference. -/
theorem claim1_reselection_keeps_reference (s : UPIPayment.ComponentState) (m : String) :
    (UPIPayment.handleMethodSelect m s).utrNumber = s.utrNumber ∧
    (UPIPayment.handleMethodSelect m s).selectedMethod = some m ∧
    (UPIPayment.chooseDifferentMethod s).utrNumber = "" ∧
    (UPIPayment.chooseDifferentMethod s).selectedMethod = none ∧
    (UPIPayment.handleMethodSelect m (UPIPayment.chooseDifferentMethod s)).utrNumber = "" := by
  simp [UPIPayment.handleMethodSelect, UPIPayment.chooseDifferentMethod]

/-- Claim C2, counterexample: in the end-to-end scan-to-pay run the
text ABC123456789 typed into the digit-filtering reference input is
stored as 123456789, so the confirmation callback receives 123456789
and not ABC123456789. -/
theorem claim2_counterexample :
    (UPIPayment.scanToPayRun "ABC123456789").confirmCalls =
      [("123456789", "Scan To Pay")] ∧
    (("123456789" : String) == "ABC123456789") = false := by
  decide

/-- Claim C2 as amended: selecting Scan To Pay, launching, typing
ABC123456789 into the filtering reference input and confirming fires the
confirmation callback exactly once, with arguments 123456789 (the
digit-filtered reference) and Scan To Pay, and the run succeeds with no
validation error. -/
theorem claim2_scan_to_pay_end_to_end :
    UPIPayment.scanToPayRun "ABC123456789" =
      { state := { selectedMethod := some "Scan To Pay", utrNumber := "123456789",
                   showPaymentUI := true, appLaunched := true },
        confirmCalls := [("123456789", "Scan To Pay")],
        errorToastShown := false } ∧
    (UPIPayment.scanToPayRun "ABC123456789").confirmCalls.length = 1 := by
  decide

/-- Claim C4: the reference validator accepts a string exactly when its
trimmed form has length at least 6, it is exactly the negation of the
confirm-gate refusal test, and the three samples evaluate as the spec
says. -/
theorem claim4_validator_rule (s : String) :
    (isValid s = true ↔ 6 ≤ (jsTrim s).length) ∧
    (isValid s = false ↔ (jsTrim s).length < 6) ∧
    isValid "12345" = false ∧
    isValid "123456" = true ∧
    isValid "  123456  " = true := by
  refine ⟨?_, ?_, by decide, by decide, by decide⟩ <;> simp [isValid]

/-- Claim C4 witness at the sample inputs. -/
theorem claim4_validator_rule_witness :
    (isValid "123456" = true ↔ 6 ≤ (jsTrim "123456").length) ∧
    (isValid "123456" = false ↔ (jsTrim "123456").length < 6) ∧
    isValid "12345" = false ∧
    isValid "123456" = true ∧
    isValid "  123456  " = true :=
  claim4_validator_rule "123456"

/-- Claim C6: the countdown started at six minutes twelve seconds reads
five fifty-nine after thirteen ticks, one tick from zero-zero wraps to
nine fifty-nine, and every state reachable from the start keeps minutes
non-negative and seconds within zero and fifty-nine. -/
theorem claim6_countdown :
    tickN 13 { minutes := 6, seconds := 12 } = { minutes := 5, seconds := 59 } ∧
    tick { minutes := 0, seconds := 0 } = { minutes := 9, seconds := 59 } ∧
    ∀ n : Nat, TimeLeftInv (tickN n { minutes := 6, seconds := 12 }) := by
  refine ⟨by decide, by decide, fun n => tickN_inv n _ ⟨by decide, by decide, by decide⟩⟩

/-- Claim C3: when the current reference fails the validator, confirm
refuses in both components: the state is returned unchanged, no
order-system callback fires and the validation toast is shown; when the
reference passes (and, in UPIPayment, a method is selected, as in any
launched session), the callback fires with exactly that reference. -/
theorem claim3_confirm_guard (su : UPIPayment.ComponentState)
    (ss : ScanToPayment.ComponentState) (m : String) :
    (isValid su.utrNumber = false →
      UPIPayment.handleConfirmPayment su =
        { state := su, confirmCalls := [], errorToastShown := true }) ∧
    (su.selectedMethod = some m → isValid su.utrNumber = true →
      UPIPayment.handleConfirmPayment su =
        { state := su, confirmCalls := [(su.utrNumber, m)], errorToastShown := false }) ∧
    (isValid ss.utrNumber = false →
      ScanToPayment.handleConfirmPayment ss =
        { state := ss, confirmCalls := [], errorToastShown := true }) ∧
    (isValid ss.utrNumber = true →
      ScanToPayment.handleConfirmPayment ss =
        { state := ss, confirmCalls := [ss.utrNumber], errorToastShown := false }) := by
  refine ⟨?_, ?_, ?_, ?_⟩
  · intro hv
    simp [isValid] at hv
    cases hm : su.selectedMethod with
    | none => simp [UPIPayment.handleConfirmPayment, hm]
    | some m0 => simp [UPIPayment.handleConfirmPayment, hm, hv]
  · intro hm hv
    simp [isValid] at hv
    simp [UPIPayment.handleConfirmPayment, hm, hv]
  · intro hv
    simp [isValid] at hv
    simp [ScanToPayment.handleConfirmPayment, hv]
  · intro hv
    simp [isValid] at hv
    simp [ScanToPayment.handleConfirmPayment, hv]

/-- Claim C3 witness: the guard refuses the five-character reference
12345 and passes the six-character reference 123456 under a selected
method. -/
theorem claim3_confirm_guard_witness :
    (UPIPayment.handleConfirmPayment
        { selectedMethod := some "PhonePe", utrNumber := "12345",
          showPaymentUI := true, appLaunched := true } =
      { state := { selectedMethod := some "PhonePe", utrNumber := "12345",
                   showPaymentUI := true, appLaunched := true },
        confirmCalls := [], errorToastShown := true }) ∧
    (UPIPayment.handleConfirmPayment
        { selectedMethod := some "PhonePe", utrNumber := "123456",
          showPaymentUI := true, appLaunched := true } =
      { state := { selectedMethod := some "PhonePe", utrNumber := "123456",
                   showPaymentUI := true, appLaunched := true },
        confirmCalls := [("123456", "PhonePe")], errorToastShown := false }) ∧
    (ScanToPayment.handleConfirmPayment { showPaymentUI := true, utrNumber := "12345" } =
      { state := { showPaymentUI := true, utrNumber := "12345" },
        confirmCalls := [], errorToastShown := true }) ∧
    (ScanToPayment.handleConfirmPayment { showPaymentUI := true, utrNumber := "123456" } =
      { state := { showPaymentUI := true, utrNumber := "123456" },
        confirmCalls := ["123456"], errorToastShown := false }) :=
  ⟨(claim3_confirm_guard
      { selectedMethod := some "PhonePe", utrNumber := "12345",
        showPaymentUI := true, appLaunched := true }
      { showPaymentUI := true, utrNumber := "12345" } "PhonePe").1 (by decide),
   (claim3_confirm_guard
      { selectedMethod := some "PhonePe", utrNumber := "123456",
        showPaymentUI := true, appLaunched := true }
      { showPaymentUI := true, utrNumber := "123456" } "PhonePe").2.1 rfl (by decide),
   (claim3_confirm_guard
      { selectedMethod := some "PhonePe", utrNumber := "12345",
        showPaymentUI := true, appLaunched := true }
      { showPaymentUI := true, utrNumber := "12345" } "PhonePe").2.2.1 (by decide),
   (claim3_confirm_guard
      { selectedMethod := some "PhonePe", utrNumber := "123456",
        showPaymentUI := true, appLaunched := true }
      { showPaymentUI := true, utrNumber := "123456" } "PhonePe").2.2.2 (by decide)⟩

/-- Claim C5, counterexample: with display name A B the generic deep
link double-encodes the pn value (encodeURIComponent, then the
URLSearchParams serializer), so one decode of the inserted value A%2520B
yields A%20B, which is not the original display name. -/
theorem claim5_counterexample :
    UPIPayment.generateUPILink "merchant@paytm" "A B" "499.00" none =
      "upi://pay?pa=merchant%40paytm&pn=A%2520B&am=499.00&cu=INR&tn=Payment%2520to%2520A%2520B" ∧
    formUrlDecode "A%2520B" = "A%20B" ∧
    (("A%20B" : String) == "A B") = false := by
  decide

/-- Claim C5 as amended: for an ASCII display name, the Android intent
URI inserts pn and tn encoded exactly once, and one urlencoded decode of
each inserted value recovers the display name and the note; the generic
upi link inserts them encoded twice, so one decode of its pn value
yields the encodeURIComponent image of the name rather than the name
itself. -/
theorem claim5_encoding_amended (upiId name amt : String)
    (h : ∀ c ∈ name.data, c.toNat < 128) :
    serializedValue (UPIPayment.androidIntentQueryPairs upiId name amt) "pn" =
      some (formUrlEncode name) ∧
    serializedValue (UPIPayment.androidIntentQueryPairs upiId name amt) "tn" =
      some (formUrlEncode ("Payment to " ++ name)) ∧
    formUrlDecode (formUrlEncode name) = name ∧
    formUrlDecode (formUrlEncode ("Payment to " ++ name)) = "Payment to " ++ name ∧
    serializedValue (UPIPayment.upiLinkQueryPairs upiId name amt) "pn" =
      some (formUrlEncode (encodeURIComponent name)) ∧
    serializedValue (UPIPayment.upiLinkQueryPairs upiId name amt) "tn" =
      some (formUrlEncode (encodeURIComponent ("Payment to " ++ name))) ∧
    formUrlDecode (formUrlEncode (encodeURIComponent name)) = encodeURIComponent name := by
  have hnote : ∀ c ∈ ("Payment to " ++ name).data, c.toNat < 128 := by
    intro c hc
    rw [String.data_append] at hc
    rcases List.mem_append.mp hc with h1 | h2
    · have hfix : ∀ x ∈ "Payment to ".data, x.toNat < 128 := by decide
      exact hfix c h1
    · exact h c h2
  refine ⟨rfl, rfl, formUrlDecode_formUrlEncode name h,
    formUrlDecode_formUrlEncode _ hnote, rfl, rfl,
    formUrlDecode_formUrlEncode _ (encodeURIComponent_ascii name h)⟩

/-- Claim C5 witness at the display name Flip kart. -/
theorem claim5_encoding_amended_witness :
    (∀ c ∈ "Flip kart".data, c.toNat < 128) ∧
    (serializedValue (UPIPayment.androidIntentQueryPairs "merchant@paytm" "Flip kart" "499.00") "pn" =
        some (formUrlEncode "Flip kart") ∧
      serializedValue (UPIPayment.androidIntentQueryPairs "merchant@paytm" "Flip kart" "499.00") "tn" =
        some (formUrlEncode ("Payment to " ++ "Flip kart")) ∧
      formUrlDecode (formUrlEncode "Flip kart") = "Flip kart" ∧
      formUrlDecode (formUrlEncode ("Payment to " ++ "Flip kart")) = "Payment to " ++ "Flip kart" ∧
      serializedValue (UPIPayment.upiLinkQueryPairs "merchant@paytm" "Flip kart" "499.00") "pn" =
        some (formUrlEncode (encodeURIComponent "Flip kart")) ∧
      serializedValue (UPIPayment.upiLinkQueryPairs "merchant@paytm" "Flip kart" "499.00") "tn" =
        some (formUrlEncode (encodeURIComponent ("Payment to " ++ "Flip kart"))) ∧
      formUrlDecode (formUrlEncode (encodeURIComponent "Flip kart")) =
        encodeURIComponent "Flip kart") :=
  ⟨by decide, claim5_encoding_amended "merchant@paytm" "Flip kart" "499.00" (by decide)⟩

/-- Claim C7: the verify-payment mapping marks a response paid exactly
when the raw order_status is the PAID literal, every response maps to
paid or pending (so never to a failed result), and the raw order_status
is returned alongside the mapped result. -/
theorem claim7_verify_mapping (data : CashfreeFunction.OrderData) :
    ((CashfreeFunction.verifyPaymentResponse data).paymentStatus = "paid" ↔
      data.order_status = "PAID") ∧
    ((CashfreeFunction.verifyPaymentResponse data).paymentStatus = "paid" ∨
      (CashfreeFunction.verifyPaymentResponse data).paymentStatus = "pending") ∧
    (CashfreeFunction.verifyPaymentResponse data).orderStatus = data.order_status := by
  unfold CashfreeFunction.verifyPaymentResponse
  by_cases hp : data.order_status = "PAID" <;> simp [hp]

/-- Claim C7 witness at a PAID response. -/
theorem claim7_verify_mapping_witness :
    ((CashfreeFunction.verifyPaymentResponse
        { order_status := "PAID", cf_order_id := "cf1", order_amount := 499 }).paymentStatus =
          "paid" ↔
      ({ order_status := "PAID", cf_order_id := "cf1", order_amount := 499 } :
          CashfreeFunction.OrderData).order_status = "PAID") ∧
    ((CashfreeFunction.verifyPaymentResponse
        { order_status := "PAID", cf_order_id := "cf1", order_amount := 499 }).paymentStatus =
          "paid" ∨
      (CashfreeFunction.verifyPaymentResponse
        { order_status := "PAID", cf_order_id := "cf1", order_amount := 499 }).paymentStatus =
          "pending") ∧
    (CashfreeFunction.verifyPaymentResponse
        { order_status := "PAID", cf_order_id := "cf1", order_amount := 499 }).orderStatus =
      ({ order_status := "PAID", cf_order_id := "cf1", order_amount := 499 } :
          CashfreeFunction.OrderData).order_status :=
  claim7_verify_mapping { order_status := "PAID", cf_order_id := "cf1", order_amount := 499 }

/-- Claim C8: with falsy credentials the create_order action answers the
500 configuration error without issuing any fetch; with credentials
present and a non-success remote status it answers an error carrying the
remote message and the response body as details after exactly one fetch
(no retry); and a handlePayment run whose invoke reports an error ends
in the onPaymentFailure callback with that message. -/
theorem claim8_gateway_errors (env : CashfreeFunction.Env)
    (remote : CashfreeFunction.RemoteCreate) (m : String)
    (cenv : CashfreePayment.HandlerEnv) (msg : String) :
    ((CashfreeFunction.falsyStr env.appId || CashfreeFunction.falsyStr env.secretKey) = true →
      CashfreeFunction.createOrderAction env remote =
        { response := .configError 500 "Payment gateway not configured", fetchCalls := 0 }) ∧
    ((CashfreeFunction.falsyStr env.appId || CashfreeFunction.falsyStr env.secretKey) = false →
      remote.ok = false → remote.data.message = some m → (m = "") = False →
      CashfreeFunction.createOrderAction env remote =
        { response := .gatewayError remote.status m true, fetchCalls := 1 }) ∧
    (cenv.invokeError = some msg →
      CashfreePayment.ClientEvent.paymentFailureCb msg ∈ CashfreePayment.handlePayment cenv) := by
  refine ⟨?_, ?_, ?_⟩
  · intro hcred
    simp [CashfreeFunction.createOrderAction, hcred]
  · intro hcred hok hmsg hm
    simp [CashfreeFunction.createOrderAction, hcred, hok, jsOrStr, hmsg, hm]
  · intro hinv
    simp [CashfreePayment.handlePayment, CashfreePayment.tryEvents, hinv,
      CashfreePayment.catchEvents]

/-- Claim C8 witness: missing app id on one run, a remote 400 with a
message on another, and a failing client invoke. -/
theorem claim8_gateway_errors_witness :
    (CashfreeFunction.createOrderAction { appId := none, secretKey := some "sk" }
        { ok := true, status := 200,
          data := { message := none, order_id := "o1", payment_session_id := "s1",
                    order_token := "t1", cf_order_id := "c1" } } =
      { response := .configError 500 "Payment gateway not configured", fetchCalls := 0 }) ∧
    (CashfreeFunction.createOrderAction { appId := some "id", secretKey := some "sk" }
        { ok := false, status := 400,
          data := { message := some "order_id invalid", order_id := "o1",
                    payment_session_id := "s1", order_token := "t1", cf_order_id := "c1" } } =
      { response := .gatewayError 400 "order_id invalid" true, fetchCalls := 1 }) ∧
    (CashfreePayment.ClientEvent.paymentFailureCb "Edge Function returned an error" ∈
      CashfreePayment.handlePayment
        { invokeError := some "Edge Function returned an error", dataSuccess := false,
          dataError := none, dataSessionId := "", sdkLoaded := true,
          checkoutThrows := none }) :=
  ⟨(claim8_gateway_errors { appId := none, secretKey := some "sk" }
      { ok := true, status := 200,
        data := { message := none, order_id := "o1", payment_session_id := "s1",
                  order_token := "t1", cf_order_id := "c1" } } "x"
      { invokeError := some "Edge Function returned an error", dataSuccess := false,
        dataError := none, dataSessionId := "", sdkLoaded := true,
        checkoutThrows := none } "Edge Function returned an error").1 (by decide),
   (claim8_gateway_errors { appId := some "id", secretKey := some "sk" }
      { ok := false, status := 400,
        data := { message := some "order_id invalid", order_id := "o1",
                  payment_session_id := "s1", order_token := "t1", cf_order_id := "c1" } }
      "order_id invalid"
      { invokeError := some "Edge Function returned an error", dataSuccess := false,
        dataError := none, dataSessionId := "", sdkLoaded := true,
        checkoutThrows := none } "Edge Function returned an error").2.1
      (by decide) rfl rfl (by decide),
   (claim8_gateway_errors { appId := some "id", secretKey := some "sk" }
      { ok := false, status := 400,
        data := { message := some "order_id invalid", order_id := "o1",
                  payment_session_id := "s1", order_token := "t1", cf_order_id := "c1" } }
      "order_id invalid"
      { invokeError := some "Edge Function returned an error", dataSuccess := false,
        dataError := none, dataSessionId := "", sdkLoaded := true,
        checkoutThrows := none } "Edge Function returned an error").2.2 rfl⟩

/-- Claim C9: every handlePayment run sets the loading flag first,
clears it last (the finally clause runs on success and on every error
path), replaying any run over any initial flag value ends with the flag
clear, and the initiating button is disabled whenever the flag is set. -/
theorem claim9_loading_flag (env : CashfreePayment.HandlerEnv) (l d : Bool) :
    (CashfreePayment.handlePayment env).head? =
      some CashfreePayment.ClientEvent.setLoadingTrue ∧
    (CashfreePayment.handlePayment env).getLast? =
      some CashfreePayment.ClientEvent.setLoadingFalse ∧
    CashfreePayment.loadingAfter (CashfreePayment.handlePayment env) l = false ∧
    CashfreePayment.payButtonDisabled d true = true := by
  refine ⟨?_, ?_, ?_, by simp [CashfreePayment.payButtonDisabled]⟩
  · simp [CashfreePayment.handlePayment]
  · rw [CashfreePayment.handlePayment, List.getLast?_append]
    rfl
  · simp [CashfreePayment.handlePayment, CashfreePayment.loadingAfter, List.foldl_append]

/-- Claim C10: no handlePayment run contains an onPaymentSuccess
invocation; the component only ever signals failure, success being
delegated to the gateway redirect. -/
theorem claim10_no_success_callback (env : CashfreePayment.HandlerEnv) :
    (CashfreePayment.handlePayment env).any CashfreePayment.isSuccessCallback = false := by
  unfold CashfreePayment.handlePayment CashfreePayment.tryEvents
  cases hinv : env.invokeError <;>
    cases hds : env.dataSuccess <;>
      cases hsdk : env.sdkLoaded <;>
        cases hct : env.checkoutThrows <;>
          simp [CashfreePayment.catchEvents, CashfreePayment.isSuccessCallback]
